import Mathlib

/-!
# Verification of the Holiday Calendar API core

A shallow embedding, in Lean 4, of the core logic of the Holiday Calendar
API (`rapidapi-deployment/server.js`): the ICS encoder (`escapeText`,
`generateUID`, `formatDate`, `generateICS`), the holiday resolver
(`fetchHolidays` with its static fallback table `enhancedHolidays`), and
the request validator (`validateHolidayRequest`).

Modelling conventions:
* JavaScript strings are modelled as `List Char` (`Str`); the string
  functions used by the source (`replace` with a single-character global
  pattern, `toLowerCase`/`toUpperCase` on ASCII, template literals) are
  modelled as the corresponding list operations.
* JavaScript truthiness on an optional string (`undefined` and the empty
  string are falsy, every other string truthy) is modelled by `truthy`.
* The wall clock is not modelled: the formatted generation timestamp
  (the value `formatDateTimeUTC(new Date())` computed once at the top of
  `generateICS`) enters the embedding as an explicit parameter.
* Network requests performed by `fetchHolidays` are modelled by a list of
  per-source outcomes (`ExtOutcome`), one per configured API endpoint:
  a source either errors, answers with a non-array payload, or answers
  with an array of raw holiday objects.
-/

namespace HolidayCal

/-- JavaScript strings, modelled as lists of characters. -/
abbrev Str := List Char

/-- Coerce a Lean string literal into the `Str` model. -/
def str (s : String) : Str := s.data

/-- JavaScript truthiness of an optional string: `undefined` (absent) and
the empty string are falsy; every other string is truthy. -/
def truthy : Option Str → Bool
  | none => false
  | some s => !s.isEmpty

/-- ASCII lower-casing of one character, as `String.prototype.toLowerCase`
acts on the ASCII letters (the only case-bearing characters appearing in
this API's data). -/
def toLowerChar (c : Char) : Char :=
  match c with
  | 'A' => 'a' | 'B' => 'b' | 'C' => 'c' | 'D' => 'd' | 'E' => 'e' | 'F' => 'f' | 'G' => 'g'
  | 'H' => 'h' | 'I' => 'i' | 'J' => 'j' | 'K' => 'k' | 'L' => 'l' | 'M' => 'm' | 'N' => 'n'
  | 'O' => 'o' | 'P' => 'p' | 'Q' => 'q' | 'R' => 'r' | 'S' => 's' | 'T' => 't' | 'U' => 'u'
  | 'V' => 'v' | 'W' => 'w' | 'X' => 'x' | 'Y' => 'y' | 'Z' => 'z'
  | c => c

/-- ASCII upper-casing of one character, as `String.prototype.toUpperCase`
acts on the ASCII letters. -/
def toUpperChar (c : Char) : Char :=
  match c with
  | 'a' => 'A' | 'b' => 'B' | 'c' => 'C' | 'd' => 'D' | 'e' => 'E' | 'f' => 'F' | 'g' => 'G'
  | 'h' => 'H' | 'i' => 'I' | 'j' => 'J' | 'k' => 'K' | 'l' => 'L' | 'm' => 'M' | 'n' => 'N'
  | 'o' => 'O' | 'p' => 'P' | 'q' => 'Q' | 'r' => 'R' | 's' => 'S' | 't' => 'T' | 'u' => 'U'
  | 'v' => 'V' | 'w' => 'W' | 'x' => 'X' | 'y' => 'Y' | 'z' => 'Z'
  | c => c

/-- `s.toLowerCase()` on the ASCII fragment. -/
def toLowerStr (s : Str) : Str := s.map toLowerChar

/-- `s.toUpperCase()` on the ASCII fragment. -/
def toUpperStr (s : Str) : Str := s.map toUpperChar

/-- Global replacement of the single character `c` by the string `r`:
the model of `s.replace(/c/g, r)` for a one-character pattern. -/
def replaceChar (c : Char) (r : Str) (s : Str) : Str :=
  s.flatMap (fun x => if x = c then r else [x])

/-- `escapeText` from the source, applied to free-text fields (name,
description).  The five substitutions are performed in source order:
backslash first, then semicolon, comma, newline, and carriage-return
removal:

```js
function escapeText(text) {
    return text
        .replace(/\\/g, '\\\\')
        .replace(/;/g, '\\;')
        .replace(/,/g, '\\,')
        .replace(/\n/g, '\\n')
        .replace(/\r/g, '');
}
```
-/
def escapeText (text : Str) : Str :=
  replaceChar '\x0d' []
    (replaceChar '\n' ['\\', 'n']
      (replaceChar ',' ['\\', ',']
        (replaceChar ';' ['\\', ';']
          (replaceChar '\\' ['\\', '\\'] text))))

/-- One holiday record, the shape produced by the resolver and consumed by
the encoder: `date`, `name`, optional `description`, `type`, and an
optional `observed` date (absent on every static-table entry). -/
structure Holiday where
  date : Str
  name : Str
  description : Option Str
  type : Str
  observed : Option Str
deriving DecidableEq

/-- One digit character, for decimal printing of numbers. -/
def digitChar (n : Nat) : Char :=
  match n with
  | 0 => '0' | 1 => '1' | 2 => '2' | 3 => '3' | 4 => '4'
  | 5 => '5' | 6 => '6' | 7 => '7' | 8 => '8' | 9 => '9'
  | _ => '*'

/-- Fuel-driven worker for decimal printing (structural recursion so that
concrete values reduce in the kernel). -/
def natToStrGo (fuel n : Nat) (acc : Str) : Str :=
  match fuel with
  | 0 => acc
  | fuel + 1 =>
    if n < 10 then digitChar n :: acc
    else natToStrGo fuel (n / 10) (digitChar (n % 10) :: acc)

/-- Decimal representation of a natural number: the model of interpolating
a non-negative JavaScript number into a template literal. -/
def natToStr (n : Nat) : Str := natToStrGo (n + 1) n []

/-- The escaping rule of spec §4.2 read as an independent per-character
substitution (each character of the ORIGINAL text is rewritten once,
characters introduced by a substitution are never rewritten again).
Stated from the spec's words, to be compared with the source's
`escapeText`. -/
def escapeCharSpec (c : Char) : Str :=
  if c = '\\' then ['\\', '\\']
  else if c = ';' then ['\\', ';']
  else if c = ',' then ['\\', ',']
  else if c = '\n' then ['\\', 'n']
  else if c = '\x0d' then []
  else [c]

/-- `generateUID` from the source:

```js
function generateUID(holiday, country, year) {
    const dateStr = holiday.date.replace(DASH_REGEX_GLOBAL, '');   // the literal regex is the dash
    const nameHash = holiday.name.replace(/[^a-zA-Z0-9]/g, '').toLowerCase();
    return `${dateStr}-${nameHash}-${country}-${year}@holiday-calendar-api.com`;
}
```

Stripping every dash is `filter (· ≠ '-')`, deleting every
non-alphanumeric character is `filter isAlphanum` (the regex class
`[^a-zA-Z0-9]` is exactly non-ASCII-alphanumeric).  The year is a
JavaScript number (non-negative after validation), printed in decimal. -/
def generateUID (holiday : Holiday) (country : Str) (year : Nat) : Str :=
  let dateStr := holiday.date.filter (fun c => c ≠ '-')
  let nameHash := toLowerStr (holiday.name.filter (fun c => c.isAlphanum))
  dateStr ++ str "-" ++ nameHash ++ str "-" ++ country ++ str "-" ++ natToStr year
    ++ str "@holiday-calendar-api.com"

/-- `formatDate` from the source: `dateStr.replace(DASH_REGEX_GLOBAL, '')`, i.e. delete every dash. -/
def formatDate (dateStr : Str) : Str := dateStr.filter (fun c => c ≠ '-')

/-- The options record destructured at the top of `generateICS`:
`{ country, year, region }`. -/
structure RenderOptions where
  country : Str
  year : Nat
  region : Option Str

/-- The calendar display name (source lines 227–229):
`region ? `${country}-${region} Public Holidays ${year}` : `${country} Public Holidays ${year}``.
JavaScript truthiness of `region` decides the branch. -/
def calendarName (options : RenderOptions) : Str :=
  if truthy options.region then
    options.country ++ str "-" ++ options.region.getD [] ++ str " Public Holidays "
      ++ natToStr options.year
  else
    options.country ++ str " Public Holidays " ++ natToStr options.year

/-- The lines pushed for one holiday inside the `holidays.forEach` loop of
`generateICS` (source lines 248–276), in push order: the fixed nine-line
block, then the optional `DESCRIPTION` line (guarded by the truthiness of
`holiday.description`), the `CATEGORIES` line with the upper-cased type,
the optional `X-OBSERVED-DATE` line (guarded by
`holiday.observed && holiday.observed !== holiday.date`), and the closing
`END:VEVENT`. -/
def eventLines (options : RenderOptions) (timestamp : Str) (holiday : Holiday) : List Str :=
  let uid := generateUID holiday options.country options.year
  let dtstart := formatDate holiday.date
  [str "BEGIN:VEVENT",
   str "UID:" ++ uid,
   str "DTSTAMP:" ++ timestamp,
   str "DTSTART;VALUE=DATE:" ++ dtstart,
   str "SUMMARY:" ++ escapeText holiday.name,
   str "STATUS:CONFIRMED",
   str "TRANSP:TRANSPARENT",
   str "CLASS:PUBLIC",
   str "PRIORITY:5"]
  ++ (if truthy holiday.description then
        [str "DESCRIPTION:" ++ escapeText (holiday.description.getD [])]
      else [])
  ++ [str "CATEGORIES:" ++ toUpperStr holiday.type ++ str ",HOLIDAY"]
  ++ (if truthy holiday.observed ∧ holiday.observed.getD [] ≠ holiday.date then
        [str "X-OBSERVED-DATE:" ++ formatDate (holiday.observed.getD [])]
      else [])
  ++ [str "END:VEVENT"]

/-- The header lines of the calendar (source lines 235–246). -/
def headerLines (options : RenderOptions) : List Str :=
  [str "BEGIN:VCALENDAR",
   str "VERSION:2.0",
   str "PRODID:-//Holiday Calendar API//Holiday Calendar " ++ natToStr options.year ++ str "//EN",
   str "CALSCALE:GREGORIAN",
   str "METHOD:PUBLISH",
   str "X-WR-CALNAME:" ++ calendarName options,
   str "X-WR-CALDESC:Public holidays calendar generated by Holiday Calendar API",
   str "X-WR-TIMEZONE:UTC",
   str "X-PUBLISHED-TTL:PT1H",
   str "X-ORIGINAL-URL:https://rapidapi.com/holiday-calendar-api"]

/-- The `icsContent` array built by `generateICS` (source lines 224–278):
the header lines, then — by the `holidays.forEach` loop, modelled as a left
fold pushing each holiday's lines — one event block per record, then the
final `END:VCALENDAR`.  The `timestamp` parameter is the value
`formatDateTimeUTC(new Date())` computed once before the loop (lines
232–233); the wall clock itself is outside the embedding. -/
def generateICSLines (holidays : List Holiday) (options : RenderOptions)
    (timestamp : Str) : List Str :=
  let header := headerLines options
  let content := holidays.foldl (fun acc holiday => acc ++ eventLines options timestamp holiday)
    header
  content ++ [str "END:VCALENDAR"]

/-- `generateICS` returns `icsContent.join('\r\n')`. -/
def generateICS (holidays : List Holiday) (options : RenderOptions) (timestamp : Str) : Str :=
  List.intercalate (str "\x0d\n") (generateICSLines holidays options timestamp)

/-- The ISO 3166-1 alpha-2 codes accepted by the validator (source `VALID_COUNTRIES`). -/
def VALID_COUNTRIES : List Str :=
  [str "AD", str "AE", str "AF", str "AG", str "AI", str "AL", str "AM", str "AO", str "AQ",
   str "AR", str "AS", str "AT", str "AU", str "AW", str "AX", str "AZ", str "BA", str "BB",
   str "BD", str "BE", str "BF", str "BG", str "BH", str "BI", str "BJ", str "BL", str "BM",
   str "BN", str "BO", str "BQ", str "BR", str "BS", str "BT", str "BV", str "BW", str "BY",
   str "BZ", str "CA", str "CC", str "CD", str "CF", str "CG", str "CH", str "CI", str "CK",
   str "CL", str "CM", str "CN", str "CO", str "CR", str "CU", str "CV", str "CW", str "CX",
   str "CY", str "CZ", str "DE", str "DJ", str "DK", str "DM", str "DO", str "DZ", str "EC",
   str "EE", str "EG", str "EH", str "ER", str "ES", str "ET", str "FI", str "FJ", str "FK",
   str "FM", str "FO", str "FR", str "GA", str "GB", str "GD", str "GE", str "GF", str "GG",
   str "GH", str "GI", str "GL", str "GM", str "GN", str "GP", str "GQ", str "GR", str "GS",
   str "GT", str "GU", str "GW", str "GY", str "HK", str "HM", str "HN", str "HR", str "HT",
   str "HU", str "ID", str "IE", str "IL", str "IM", str "IN", str "IO", str "IQ", str "IR",
   str "IS", str "IT", str "JE", str "JM", str "JO", str "JP", str "KE", str "KG", str "KH",
   str "KI", str "KM", str "KN", str "KP", str "KR", str "KW", str "KY", str "KZ", str "LA",
   str "LB", str "LC", str "LI", str "LK", str "LR", str "LS", str "LT", str "LU", str "LV",
   str "LY", str "MA", str "MC", str "MD", str "ME", str "MF", str "MG", str "MH", str "MK",
   str "ML", str "MM", str "MN", str "MO", str "MP", str "MQ", str "MR", str "MS", str "MT",
   str "MU", str "MV", str "MW", str "MX", str "MY", str "MZ", str "NA", str "NC", str "NE",
   str "NF", str "NG", str "NI", str "NL", str "NO", str "NP", str "NR", str "NU", str "NZ",
   str "OM", str "PA", str "PE", str "PF", str "PG", str "PH", str "PK", str "PL", str "PM",
   str "PN", str "PR", str "PS", str "PT", str "PW", str "PY", str "QA", str "RE", str "RO",
   str "RS", str "RU", str "RW", str "SA", str "SB", str "SC", str "SD", str "SE", str "SG",
   str "SH", str "SI", str "SJ", str "SK", str "SL", str "SM", str "SN", str "SO", str "SR",
   str "SS", str "ST", str "SV", str "SX", str "SY", str "SZ", str "TC", str "TD", str "TF",
   str "TG", str "TH", str "TJ", str "TK", str "TL", str "TM", str "TN", str "TO", str "TR",
   str "TT", str "TV", str "TW", str "TZ", str "UA", str "UG", str "UM", str "US", str "UY",
   str "UZ", str "VA", str "VC", str "VE", str "VG", str "VI", str "VN", str "VU", str "WF",
   str "WS", str "YE", str "YT", str "ZA", str "ZM", str "ZW"]

/-- The static built-in holiday table (source `enhancedHolidays`), keyed by "COUNTRY-YEAR". -/
def enhancedHolidays : List (Str × List Holiday) :=
  [
   (str "US-2025",
    [
     ⟨str "2025-01-01", str "New Year\x27s Day", some (str "The first day of the Gregorian calendar year"), str "public", none⟩,
     ⟨str "2025-01-20", str "Martin Luther King Jr. Day", some (str "Federal holiday honoring civil rights leader Martin Luther King Jr."), str "public", none⟩,
     ⟨str "2025-02-17", str "Presidents\x27 Day", some (str "Federal holiday honoring all U.S. presidents"), str "public", none⟩,
     ⟨str "2025-05-26", str "Memorial Day", some (str "Federal holiday honoring military personnel who died in service"), str "public", none⟩,
     ⟨str "2025-07-04", str "Independence Day", some (str "Celebration of American independence from Great Britain"), str "public", none⟩,
     ⟨str "2025-09-01", str "Labor Day", some (str "Federal holiday celebrating the contributions of workers"), str "public", none⟩,
     ⟨str "2025-10-13", str "Columbus Day", some (str "Federal holiday commemorating Christopher Columbus"), str "public", none⟩,
     ⟨str "2025-11-11", str "Veterans Day", some (str "Federal holiday honoring military veterans"), str "public", none⟩,
     ⟨str "2025-11-27", str "Thanksgiving Day", some (str "Federal holiday for giving thanks and sharing meals with family"), str "public", none⟩,
     ⟨str "2025-12-25", str "Christmas Day", some (str "Christian holiday celebrating the birth of Jesus Christ"), str "public", none⟩]),
   (str "GB-2025",
    [
     ⟨str "2025-01-01", str "New Year\x27s Day", some (str "The first day of the Gregorian calendar year"), str "public", none⟩,
     ⟨str "2025-04-18", str "Good Friday", some (str "Christian holiday commemorating the crucifixion of Jesus"), str "public", none⟩,
     ⟨str "2025-04-21", str "Easter Monday", some (str "Christian holiday celebrating the resurrection of Jesus"), str "public", none⟩,
     ⟨str "2025-05-05", str "Early May Bank Holiday", some (str "Spring bank holiday in the UK"), str "bank", none⟩,
     ⟨str "2025-05-26", str "Spring Bank Holiday", some (str "Late spring bank holiday in the UK"), str "bank", none⟩,
     ⟨str "2025-08-25", str "Summer Bank Holiday", some (str "Summer bank holiday in England, Wales, and Northern Ireland"), str "bank", none⟩,
     ⟨str "2025-12-25", str "Christmas Day", some (str "Christian holiday celebrating the birth of Jesus Christ"), str "public", none⟩,
     ⟨str "2025-12-26", str "Boxing Day", some (str "Traditional holiday following Christmas Day"), str "public", none⟩]),
   (str "CA-2025",
    [
     ⟨str "2025-01-01", str "New Year\x27s Day", some (str "The first day of the Gregorian calendar year"), str "public", none⟩,
     ⟨str "2025-04-18", str "Good Friday", some (str "Christian holiday commemorating the crucifixion of Jesus"), str "public", none⟩,
     ⟨str "2025-04-21", str "Easter Monday", some (str "Christian holiday celebrating the resurrection of Jesus"), str "public", none⟩,
     ⟨str "2025-05-19", str "Victoria Day", some (str "Canadian federal holiday honoring Queen Victoria"), str "public", none⟩,
     ⟨str "2025-07-01", str "Canada Day", some (str "National holiday celebrating Canadian Confederation"), str "public", none⟩,
     ⟨str "2025-09-01", str "Labour Day", some (str "Federal holiday celebrating the contributions of workers"), str "public", none⟩,
     ⟨str "2025-10-13", str "Thanksgiving", some (str "Canadian holiday for giving thanks"), str "public", none⟩,
     ⟨str "2025-11-11", str "Remembrance Day", some (str "Memorial day for military personnel who died in service"), str "public", none⟩,
     ⟨str "2025-12-25", str "Christmas Day", some (str "Christian holiday celebrating the birth of Jesus Christ"), str "public", none⟩,
     ⟨str "2025-12-26", str "Boxing Day", some (str "Traditional holiday following Christmas Day"), str "public", none⟩]),
   (str "DE-2025",
    [
     ⟨str "2025-01-01", str "New Year\x27s Day", some (str "The first day of the Gregorian calendar year"), str "public", none⟩,
     ⟨str "2025-05-01", str "Labour Day", some (str "German holiday celebrating workers"), str "public", none⟩,
     ⟨str "2025-10-03", str "German Unity Day", some (str "National holiday commemorating German reunification"), str "public", none⟩,
     ⟨str "2025-12-25", str "Christmas Day", some (str "Christian holiday celebrating the birth of Jesus Christ"), str "public", none⟩,
     ⟨str "2025-12-26", str "Boxing Day", some (str "Second day of Christmas"), str "public", none⟩]),
   (str "FR-2025",
    [
     ⟨str "2025-01-01", str "New Year\x27s Day", some (str "The first day of the Gregorian calendar year"), str "public", none⟩,
     ⟨str "2025-05-01", str "Labour Day", some (str "French holiday celebrating workers"), str "public", none⟩,
     ⟨str "2025-05-08", str "Victory in Europe Day", some (str "Commemorates the end of World War II in Europe"), str "public", none⟩,
     ⟨str "2025-07-14", str "Bastille Day", some (str "French National Day"), str "public", none⟩,
     ⟨str "2025-08-15", str "Assumption Day", some (str "Christian holiday"), str "public", none⟩,
     ⟨str "2025-11-01", str "All Saints Day", some (str "Christian holiday honoring all saints"), str "public", none⟩,
     ⟨str "2025-11-11", str "Armistice Day", some (str "Commemorates the end of World War I"), str "public", none⟩,
     ⟨str "2025-12-25", str "Christmas Day", some (str "Christian holiday celebrating the birth of Jesus Christ"), str "public", none⟩])]

/-- The raw shape of one element of an external API's array response
(the fields the adapter in `fetchHolidays` reads: `date`, `name`,
optional `localName`, optional `types`). -/
structure ExtHoliday where
  date : Str
  name : Str
  localName : Option Str
  types : Option (List Str)

/-- The outcome of one external-source request (source lines 293–309):
the request errors out or times out (`fail`), succeeds with a payload that
is falsy or not an array (`nonArray`), or succeeds with an array of raw
holiday objects (`arr`). -/
inductive ExtOutcome where
  | fail
  | nonArray
  | arr (data : List ExtHoliday)

/-- Does an outcome pass the `response.data && Array.isArray(response.data)`
check, i.e. yield usable data? -/
def ExtOutcome.usable : ExtOutcome → Bool
  | .arr _ => true
  | _ => false

/-- The adapter applied to each element of a successful array response
(source lines 298–303):

```js
{
    date: holiday.date,
    name: holiday.name,
    description: holiday.localName !== holiday.name ? holiday.localName : undefined,
    type: holiday.types?.includes('Public') ? 'public' : 'bank'
}
```

An absent `localName` is `undefined`, which is `!==` any string, and the
branch then yields `undefined` again — so `description` is `localName`
unless `localName` equals `name`.  An absent `types` makes the optional
chain yield `undefined`, which is falsy, so the type defaults to
`'bank'`. -/
def mapExtHoliday (h : ExtHoliday) : Holiday :=
  { date := h.date,
    name := h.name,
    description := if h.localName = some h.name then none else h.localName,
    type := if (h.types.getD []).contains (str "Public") then str "public" else str "bank",
    observed := none }

/-- The `for (const apiUrl of apis)` loop of `fetchHolidays`: sources are
tried in order; the first outcome passing the array check is adapted and
returned immediately; failures and non-array payloads fall through to the
next source. -/
def tryAPIs : List ExtOutcome → Option (List Holiday)
  | [] => none
  | ExtOutcome.arr data :: _ => some (data.map mapExtHoliday)
  | _ :: rest => tryAPIs rest

/-- `fetchHolidays` (source lines 284–317): try the external sources in
order; if none yields an array payload, fall back to the static table
under the key `"${country}-${year}"`, and to `[]` when the key is absent
(`enhancedHolidays[key] || []`).  The `region` parameter is accepted but
never read.  The function is total: every failure path ends in the
fallback expression, never in a thrown error. -/
def fetchHolidays (ext : List ExtOutcome) (country : Str) (year : Nat)
    (region : Option Str) : List Holiday :=
  match tryAPIs ext with
  | some holidays => holidays
  | none => ((enhancedHolidays.lookup (country ++ str "-" ++ natToStr year)).getD [])

/-- Skip the longest prefix of ASCII whitespace, the first step of
`parseInt`'s grammar. -/
def isSpaceChar (c : Char) : Bool :=
  c = ' ' || c = '\t' || c = '\n' || c = '\x0d' || c = '\x0b' || c = '\x0c'

/-- Is `c` a digit of the given radix (10 or 16)? -/
def isRadixDigit (radix : Nat) (c : Char) : Bool :=
  if radix = 16 then
    c.isDigit || ('a' ≤ c && c ≤ 'f') || ('A' ≤ c && c ≤ 'F')
  else
    c.isDigit

/-- Numeric value of a radix digit. -/
def radixDigitVal (c : Char) : Nat :=
  if 'a' ≤ c && c ≤ 'f' then c.toNat - 87
  else if 'A' ≤ c && c ≤ 'F' then c.toNat - 55
  else c.toNat - 48

/-- JavaScript `parseInt(string)` with no explicit radix, on the fragment
the validator exercises: skip leading whitespace, read an optional sign,
auto-detect a `0x`/`0X` hexadecimal prefix (radix 16, else radix 10),
then read the longest prefix of radix digits, ignoring everything after
it; `NaN` (here `none`) when that prefix is empty. -/
def jsParseInt (s : Str) : Option Int :=
  let s1 := s.dropWhile isSpaceChar
  let signAndRest : Int × Str :=
    match s1 with
    | '-' :: rest => (-1, rest)
    | '+' :: rest => (1, rest)
    | _ => (1, s1)
  let radixAndRest : Nat × Str :=
    match signAndRest.2 with
    | '0' :: 'x' :: rest => (16, rest)
    | '0' :: 'X' :: rest => (16, rest)
    | _ => (10, signAndRest.2)
  let digits := radixAndRest.2.takeWhile (isRadixDigit radixAndRest.1)
  if digits.isEmpty then none
  else some (signAndRest.1 *
    (digits.foldl (fun a c => radixAndRest.1 * a + radixDigitVal c) 0 : Nat))

/-- The observable result of the validation middleware
`validateHolidayRequest`: either an error response identified by its
`code` field, or the `req.validatedQuery` object passed on to the
handler. -/
inductive ValidationResult where
  | errorResp (code : Str)
  | ok (country : Str) (year : Int) (region : Option Str)
deriving DecidableEq

/-- `validateHolidayRequest` (source lines 320–368), as a function of the
three query parameters (`none` models an absent parameter): reject a
falsy `country` (`MISSING_COUNTRY`), a country whose upper-casing is not
in `VALID_COUNTRIES` (`INVALID_COUNTRY`), a falsy `year` (`MISSING_YEAR`),
and a `year` that does not `parseInt` into `[2000, 2030]`
(`INVALID_YEAR`); otherwise build `validatedQuery` with the upper-cased
country, the parsed year, and the optionally upper-cased region. -/
def validateHolidayRequest (country year region : Option Str) : ValidationResult :=
  if !truthy country then .errorResp (str "MISSING_COUNTRY")
  else if !(VALID_COUNTRIES.contains (toUpperStr (country.getD []))) then
    .errorResp (str "INVALID_COUNTRY")
  else if !truthy year then .errorResp (str "MISSING_YEAR")
  else
    match jsParseInt (year.getD []) with
    | none => .errorResp (str "INVALID_YEAR")
    | some n =>
      if n < 2000 || n > 2030 then .errorResp (str "INVALID_YEAR")
      else .ok (toUpperStr (country.getD [])) n (region.map toUpperStr)


/-! ## Supporting lemmas -/

theorem escapeText_append (a b : Str) :
    escapeText (a ++ b) = escapeText a ++ escapeText b := by
  simp [escapeText, replaceChar]

theorem escapeText_singleton (c : Char) : escapeText [c] = escapeCharSpec c := by
  by_cases h1 : c = '\\'
  · subst h1; decide
  by_cases h2 : c = ';'
  · subst h2; decide
  by_cases h3 : c = ','
  · subst h3; decide
  by_cases h4 : c = '\n'
  · subst h4; decide
  by_cases h5 : c = '\x0d'
  · subst h5; decide
  simp [escapeText, replaceChar, escapeCharSpec, h1, h2, h3, h4, h5]

theorem foldl_append_eq_flatMap {α β : Type} (l : List α) (init : List β) (f : α → List β) :
    l.foldl (fun acc x => acc ++ f x) init = init ++ l.flatMap f := by
  induction l generalizing init with
  | nil => simp
  | cons x xs ih => simp [List.foldl_cons, ih, List.append_assoc]

theorem sum_map_one {α : Type} (l : List α) : (l.map (fun _ => (1 : Nat))).sum = l.length := by
  induction l <;> simp [*] <;> omega

theorem flatMap_singleton_eq_map {α β : Type} (l : List α) (f : α → β) :
    (l.flatMap fun a => [f a]) = l.map f := by
  induction l <;> simp [*]

/-- The `icsContent` array decomposes into header, one block of lines per
holiday in input order, and the footer. -/
theorem generateICSLines_eq (holidays : List Holiday) (options : RenderOptions)
    (timestamp : Str) :
    generateICSLines holidays options timestamp =
      headerLines options ++ holidays.flatMap (eventLines options timestamp)
        ++ [str "END:VCALENDAR"] := by
  simp [generateICSLines, foldl_append_eq_flatMap]

/-! ## C1 — escaping order and single-pass substitution -/

/-- C1: `escapeText` replaces backslash first, then semicolon, comma and
newline, and strips carriage returns; the chained substitutions agree with
a single independent per-character substitution over the original text, so
characters introduced by later substitutions are never re-escaped. -/
theorem escapeText_single_pass (text : Str) :
    escapeText text = text.flatMap escapeCharSpec := by
  induction text with
  | nil => rfl
  | cons c cs ih =>
    calc escapeText (c :: cs)
        = escapeText ([c] ++ cs) := rfl
      _ = escapeText [c] ++ escapeText cs := escapeText_append [c] cs
      _ = escapeCharSpec c ++ cs.flatMap escapeCharSpec := by
          rw [escapeText_singleton, ih]
      _ = (c :: cs).flatMap escapeCharSpec := by simp

theorem eventLines_filter_beginEvent (o : RenderOptions) (ts : Str) (h : Holiday) :
    (eventLines o ts h).filter (fun l => l = str "BEGIN:VEVENT") = [str "BEGIN:VEVENT"] := by
  by_cases h1 : truthy h.description <;>
  by_cases h2 : truthy h.observed ∧ h.observed.getD [] ≠ h.date <;>
  simp [eventLines, h1, h2, str]

theorem eventLines_filter_endEvent (o : RenderOptions) (ts : Str) (h : Holiday) :
    (eventLines o ts h).filter (fun l => l = str "END:VEVENT") = [str "END:VEVENT"] := by
  by_cases h1 : truthy h.description <;>
  by_cases h2 : truthy h.observed ∧ h.observed.getD [] ≠ h.date <;>
  simp [eventLines, h1, h2, str]

theorem eventLines_filter_uid (o : RenderOptions) (ts : Str) (h : Holiday) :
    (eventLines o ts h).filter (fun l => (str "UID:").isPrefixOf l) =
      [str "UID:" ++ generateUID h o.country o.year] := by
  by_cases h1 : truthy h.description <;>
  by_cases h2 : truthy h.observed ∧ h.observed.getD [] ≠ h.date <;>
  simp [eventLines, h1, h2, str, List.isPrefixOf_cons₂]

theorem eventLines_filter_dtstamp (o : RenderOptions) (ts : Str) (h : Holiday) :
    (eventLines o ts h).filter (fun l => (str "DTSTAMP:").isPrefixOf l) =
      [str "DTSTAMP:" ++ ts] := by
  by_cases h1 : truthy h.description <;>
  by_cases h2 : truthy h.observed ∧ h.observed.getD [] ≠ h.date <;>
  simp [eventLines, h1, h2, str, List.isPrefixOf_cons₂]

theorem eventLines_filter_observed (o : RenderOptions) (ts : Str) (h : Holiday) :
    (eventLines o ts h).filter (fun l => (str "X-OBSERVED-DATE:").isPrefixOf l) =
      if truthy h.observed ∧ h.observed.getD [] ≠ h.date then
        [str "X-OBSERVED-DATE:" ++ formatDate (h.observed.getD [])]
      else [] := by
  by_cases h1 : truthy h.description <;>
  by_cases h2 : truthy h.observed ∧ h.observed.getD [] ≠ h.date <;>
  simp [eventLines, h1, h2, str, List.isPrefixOf_cons₂]

theorem headerLines_filter_beginEvent (o : RenderOptions) :
    (headerLines o).filter (fun l => l = str "BEGIN:VEVENT") = [] := by
  simp [headerLines, str]

theorem headerLines_filter_endEvent (o : RenderOptions) :
    (headerLines o).filter (fun l => l = str "END:VEVENT") = [] := by
  simp [headerLines, str]

theorem headerLines_filter_uid (o : RenderOptions) :
    (headerLines o).filter (fun l => (str "UID:").isPrefixOf l) = [] := by
  simp [headerLines, str, List.isPrefixOf_cons₂]

theorem headerLines_filter_dtstamp (o : RenderOptions) :
    (headerLines o).filter (fun l => (str "DTSTAMP:").isPrefixOf l) = [] := by
  simp [headerLines, str, List.isPrefixOf_cons₂]

theorem headerLines_filter_observed (o : RenderOptions) :
    (headerLines o).filter (fun l => (str "X-OBSERVED-DATE:").isPrefixOf l) = [] := by
  simp [headerLines, str, List.isPrefixOf_cons₂]

/-! ## C3 — one event block per record, in input order -/

/-- C3: the rendered document has exactly one `BEGIN:VEVENT` and one
`END:VEVENT` line per input record, and its `UID:` lines are precisely the
input records' UIDs in input order — the encoder emits one event block per
record and performs no re-sorting. -/
theorem generateICSLines_one_block_per_record (holidays : List Holiday)
    (options : RenderOptions) (timestamp : Str) :
    ((generateICSLines holidays options timestamp).filter
        (fun l => l = str "BEGIN:VEVENT")).length = holidays.length ∧
    ((generateICSLines holidays options timestamp).filter
        (fun l => l = str "END:VEVENT")).length = holidays.length ∧
    (generateICSLines holidays options timestamp).filter
        (fun l => (str "UID:").isPrefixOf l) =
      holidays.map (fun h => str "UID:" ++ generateUID h options.country options.year) := by
  rw [generateICSLines_eq]
  refine ⟨?_, ?_, ?_⟩ <;>
    simp only [List.filter_append, List.filter_flatMap, headerLines_filter_beginEvent,
      headerLines_filter_endEvent, headerLines_filter_uid, eventLines_filter_beginEvent,
      eventLines_filter_endEvent, eventLines_filter_uid, Function.comp] <;>
    simp [str, sum_map_one, flatMap_singleton_eq_map]

/-! ## C9 — a single DTSTAMP value per render -/

/-- C9: within one render every event block carries the same `DTSTAMP`
line — the `DTSTAMP:`-prefixed lines of the document are exactly one copy
per record of the single generation timestamp computed before the event
loop. -/
theorem generateICSLines_dtstamp_shared (holidays : List Holiday)
    (options : RenderOptions) (timestamp : Str) :
    (generateICSLines holidays options timestamp).filter
        (fun l => (str "DTSTAMP:").isPrefixOf l) =
      List.replicate holidays.length (str "DTSTAMP:" ++ timestamp) := by
  rw [generateICSLines_eq]
  simp only [List.filter_append, List.filter_flatMap, headerLines_filter_dtstamp,
    Function.comp]
  induction holidays with
  | nil => simp [str]
  | cons h hs ih =>
    simp only [List.flatMap_cons, eventLines_filter_dtstamp, List.length_cons,
      List.replicate_succ] at ih ⊢
    simp_all [str]

/-! ## C4 — two renders differ only in DTSTAMP lines -/

/-- The lines of one event block rendered at two timestamps are pairwise
equal except for the `DTSTAMP:` line. -/
theorem eventLines_forall₂ (o : RenderOptions) (ts ts' : Str) (h : Holiday) :
    List.Forall₂
      (fun l l' => l = l' ∨
        ((str "DTSTAMP:").isPrefixOf l = true ∧ (str "DTSTAMP:").isPrefixOf l' = true))
      (eventLines o ts h) (eventLines o ts' h) := by
  by_cases h1 : truthy h.description <;>
  by_cases h2 : truthy h.observed ∧ h.observed.getD [] ≠ h.date <;>
  simp [eventLines, h1, h2, str, List.forall₂_cons, List.isPrefixOf_cons₂]

/-- C4: two calls of the encoder with identical records and options yield
line-for-line identical documents, except that corresponding `DTSTAMP:`
lines may differ — the generation timestamp is the only input besides
records and options. -/
theorem generateICSLines_deterministic_but_dtstamp (holidays : List Holiday)
    (options : RenderOptions) (ts ts' : Str) :
    List.Forall₂
      (fun l l' => l = l' ∨
        ((str "DTSTAMP:").isPrefixOf l = true ∧ (str "DTSTAMP:").isPrefixOf l' = true))
      (generateICSLines holidays options ts) (generateICSLines holidays options ts') := by
  rw [generateICSLines_eq, generateICSLines_eq]
  refine List.rel_append (List.rel_append ?_ ?_) ?_
  · exact List.forall₂_same.mpr (fun x _ => Or.inl rfl)
  · induction holidays with
    | nil => exact List.Forall₂.nil
    | cons h hs ih =>
      simp only [List.flatMap_cons]
      exact List.rel_append (eventLines_forall₂ options ts ts' h) ih
  · exact List.forall₂_same.mpr (fun x _ => Or.inl rfl)

/-! ## C7 — the observed-date marker -/

/-- C7: a record contributes an `X-OBSERVED-DATE:` line exactly when its
`observed` field is present and differs from its `date` field (records are
well-formed: a present `observed` is a non-empty date string); a record
with `observed` equal to `date` contributes no marker and is not an
error. -/
theorem generateICSLines_observed_marker (holidays : List Holiday)
    (options : RenderOptions) (timestamp : Str)
    (hwf : ∀ h ∈ holidays, h.observed ≠ some []) :
    (generateICSLines holidays options timestamp).filter
        (fun l => (str "X-OBSERVED-DATE:").isPrefixOf l) =
      (holidays.filter (fun h => h.observed.isSome && h.observed != some h.date)).map
        (fun h => str "X-OBSERVED-DATE:" ++ formatDate (h.observed.getD [])) := by
  have main : ∀ (hs : List Holiday), (∀ h ∈ hs, h.observed ≠ some []) →
      (hs.flatMap fun a =>
          (eventLines options timestamp a).filter
            (fun l => (str "X-OBSERVED-DATE:").isPrefixOf l)) =
        (hs.filter (fun h => h.observed.isSome && h.observed != some h.date)).map
          (fun h => str "X-OBSERVED-DATE:" ++ formatDate (h.observed.getD [])) := by
    intro hs
    induction hs with
    | nil => intro _; rfl
    | cons h t ih =>
      intro hwf'
      have hobs : h.observed ≠ some [] := hwf' h (List.mem_cons_self h t)
      have ih' := ih (fun x hx => hwf' x (List.mem_cons_of_mem h hx))
      rw [List.flatMap_cons, eventLines_filter_observed, List.filter_cons, ih']
      by_cases hc : truthy h.observed ∧ h.observed.getD [] ≠ h.date
      · have hb : (h.observed.isSome && h.observed != some h.date) = true := by
          obtain ⟨hc1, hc2⟩ := hc
          cases ho : h.observed with
          | none => rw [ho] at hc1; simp [truthy] at hc1
          | some o =>
            rw [ho] at hc2
            simp only [Option.getD_some] at hc2
            simp [bne_iff_ne, hc2]
        simp [hc, hb]
      · have hb : (h.observed.isSome && h.observed != some h.date) = false := by
          cases ho : h.observed with
          | none => simp
          | some o =>
            have hne : o ≠ [] := by intro he; exact hobs (by rw [ho, he])
            have htr : truthy h.observed = true := by
              rw [ho]; simp [truthy, hne]
            have heq : h.observed.getD [] = h.date := by
              by_contra hne2
              exact hc ⟨htr, hne2⟩
            rw [ho] at heq
            simp only [Option.getD_some] at heq
            simp [heq]
        simp [hc, hb]
  rw [generateICSLines_eq]
  rw [List.filter_append, List.filter_append, List.filter_flatMap,
    headerLines_filter_observed]
  have hfoot : List.filter (fun l => (str "X-OBSERVED-DATE:").isPrefixOf l)
      [str "END:VCALENDAR"] = [] := by
    simp [str, List.isPrefixOf_cons₂]
  rw [hfoot, List.append_nil, List.nil_append]
  exact main holidays hwf

/-- Witness for C7: of three records — `observed` equal to `date`,
`observed` differing from `date`, and no `observed` at all — only the
middle one contributes an `X-OBSERVED-DATE:` line. -/
theorem generateICSLines_observed_marker_witness :
    (∀ h ∈ [(⟨str "2025-07-04", str "A", none, str "public", some (str "2025-07-04")⟩ : Holiday),
            ⟨str "2025-07-05", str "B", none, str "public", some (str "2025-07-07")⟩,
            ⟨str "2025-07-06", str "C", none, str "public", none⟩],
      h.observed ≠ some []) ∧
    (generateICSLines
          [⟨str "2025-07-04", str "A", none, str "public", some (str "2025-07-04")⟩,
           ⟨str "2025-07-05", str "B", none, str "public", some (str "2025-07-07")⟩,
           ⟨str "2025-07-06", str "C", none, str "public", none⟩]
          ⟨str "US", 2025, none⟩ (str "20250101T000000Z")).filter
        (fun l => (str "X-OBSERVED-DATE:").isPrefixOf l) =
      ([(⟨str "2025-07-04", str "A", none, str "public", some (str "2025-07-04")⟩ : Holiday),
        ⟨str "2025-07-05", str "B", none, str "public", some (str "2025-07-07")⟩,
        ⟨str "2025-07-06", str "C", none, str "public", none⟩].filter
          (fun h => h.observed.isSome && h.observed != some h.date)).map
        (fun h => str "X-OBSERVED-DATE:" ++ formatDate (h.observed.getD [])) :=
  ⟨by decide, generateICSLines_observed_marker _ _ _ (by decide)⟩

/-! ## C5 — static fallback when no source yields usable data -/

/-- C5: when every external source fails or yields no usable (array)
data, `fetchHolidays` returns the static table's entry for the key
`"country-year"`, and the empty list when that key is absent; every such
path ends in this total fallback expression, never in an error. -/
theorem fetchHolidays_fallback (ext : List ExtOutcome) (country : Str) (year : Nat)
    (region : Option Str) (hfail : ∀ o ∈ ext, o.usable = false) :
    fetchHolidays ext country year region =
      (enhancedHolidays.lookup (country ++ str "-" ++ natToStr year)).getD [] := by
  have hnone : tryAPIs ext = none := by
    induction ext with
    | nil => rfl
    | cons o rest ih =>
      cases o with
      | fail => exact ih (fun x hx => hfail x (List.mem_cons_of_mem _ hx))
      | nonArray => exact ih (fun x hx => hfail x (List.mem_cons_of_mem _ hx))
      | arr data =>
        have := hfail (ExtOutcome.arr data) (List.mem_cons_self _ _)
        simp [ExtOutcome.usable] at this
  simp [fetchHolidays, hnone]

/-- Witness for C5: with all three configured sources failing or
answering with a non-array payload, the `US`/`2025` request resolves to
the static `US-2025` table entry — a list of 10 records whose first is
New Year's Day. -/
theorem fetchHolidays_fallback_witness :
    (∀ o ∈ [ExtOutcome.fail, ExtOutcome.nonArray, ExtOutcome.fail], o.usable = false) ∧
    fetchHolidays [ExtOutcome.fail, ExtOutcome.nonArray, ExtOutcome.fail]
        (str "US") 2025 none =
      (enhancedHolidays.lookup (str "US" ++ str "-" ++ natToStr 2025)).getD [] ∧
    (fetchHolidays [ExtOutcome.fail, ExtOutcome.nonArray, ExtOutcome.fail]
        (str "US") 2025 none).length = 10 :=
  ⟨by decide, fetchHolidays_fallback _ _ _ _ (by decide), by decide⟩

/-! ## C6 — region does not influence the resolved records -/

/-- C6: `fetchHolidays` returns the same record sequence for any two
`region` values (including an absent one): neither the external-source
adapter nor the static-fallback key reads `region`. -/
theorem fetchHolidays_ignores_region (ext : List ExtOutcome) (country : Str)
    (year : Nat) (region region' : Option Str) :
    fetchHolidays ext country year region = fetchHolidays ext country year region' := rfl

/-! ## C10 — only name and description are escaped -/

/-- C10: the calendar name built from country, region and year, and the
upper-cased `type` in the `CATEGORIES` line, are embedded verbatim: for a
region containing a comma and a semicolon and a type containing a comma,
those characters appear unescaped in the rendered lines, while the same
comma in the record's name is escaped in the `SUMMARY` line. -/
theorem generateICSLines_unescaped_calname_categories :
    (generateICSLines [⟨str "2025-07-04", str "p,q", none, str "a,b", none⟩]
        ⟨str "US", 2025, some (str "A,B;C")⟩ (str "20250101T000000Z")).contains
      (str "X-WR-CALNAME:US-A,B;C Public Holidays 2025") = true ∧
    (generateICSLines [⟨str "2025-07-04", str "p,q", none, str "a,b", none⟩]
        ⟨str "US", 2025, some (str "A,B;C")⟩ (str "20250101T000000Z")).contains
      (str "CATEGORIES:A,B,HOLIDAY") = true ∧
    (generateICSLines [⟨str "2025-07-04", str "p,q", none, str "a,b", none⟩]
        ⟨str "US", 2025, some (str "A,B;C")⟩ (str "20250101T000000Z")).contains
      (str "SUMMARY:p\\,q") = true := by
  refine ⟨?_, ?_, ?_⟩ <;> decide

/-! ## C2 — unique identifiers: supporting lemmas -/

/-- Recursion-friendly form of the decimal representation. -/
def digitsOf (n : Nat) : Str :=
  if h : n < 10 then [digitChar n]
  else digitsOf (n / 10) ++ [digitChar (n % 10)]
termination_by n
decreasing_by exact Nat.div_lt_self (by omega) (by omega)

theorem natToStrGo_eq_digitsOf :
    ∀ (fuel n : Nat) (acc : Str), n < fuel → natToStrGo fuel n acc = digitsOf n ++ acc := by
  intro fuel
  induction fuel with
  | zero => intro n acc h; omega
  | succ fuel ih =>
    intro n acc h
    rw [natToStrGo]
    by_cases h10 : n < 10
    · rw [digitsOf]; simp [h10]
    · have hlt : n / 10 < fuel :=
        Nat.lt_of_lt_of_le (Nat.div_lt_self (by omega) (by omega)) (by omega)
      rw [if_neg h10, ih (n / 10) _ hlt]
      conv_rhs => rw [digitsOf]
      simp [h10, List.append_assoc]

theorem natToStr_eq_digitsOf (n : Nat) : natToStr n = digitsOf n := by
  have := natToStrGo_eq_digitsOf (n + 1) n [] (by omega)
  simpa [natToStr] using this

/-- Decimal parsing, a left inverse of the decimal printing. -/
def parseDec (s : Str) : Nat := s.foldl (fun a c => 10 * a + (c.toNat - 48)) 0

theorem digitChar_toNat (n : Nat) (h : n < 10) : (digitChar n).toNat - 48 = n := by
  interval_cases n <;> decide

theorem parseDec_digitsOf (n : Nat) : parseDec (digitsOf n) = n := by
  induction n using Nat.strong_induction_on with
  | _ n ih =>
    by_cases h : n < 10
    · rw [digitsOf]
      simp [h, parseDec, digitChar_toNat n h]
    · have h1 := ih (n / 10) (Nat.div_lt_self (by omega) (by omega))
      rw [digitsOf]
      simp only [h, dite_false, parseDec, List.foldl_append, List.foldl_cons, List.foldl_nil]
      rw [parseDec] at h1
      rw [h1, digitChar_toNat (n % 10) (Nat.mod_lt _ (by omega))]
      omega

theorem natToStr_injective {m n : Nat} (h : natToStr m = natToStr n) : m = n := by
  rw [natToStr_eq_digitsOf, natToStr_eq_digitsOf] at h
  have := congrArg parseDec h
  rwa [parseDec_digitsOf, parseDec_digitsOf] at this

theorem digitChar_isDigit (n : Nat) (h : n < 10) : (digitChar n).isDigit = true := by
  interval_cases n <;> decide

theorem digitsOf_all_digits (n : Nat) : ∀ c ∈ digitsOf n, c.isDigit = true := by
  induction n using Nat.strong_induction_on with
  | _ n ih =>
    by_cases h : n < 10
    · rw [digitsOf]; simp [h, digitChar_isDigit n h]
    · rw [digitsOf]
      simp only [h, dite_false, List.mem_append, List.mem_singleton]
      intro c hc
      rcases hc with hc | hc
      · exact ih (n / 10) (Nat.div_lt_self (by omega) (by omega)) c hc
      · rw [hc]; exact digitChar_isDigit (n % 10) (Nat.mod_lt _ (by omega))

theorem dash_not_mem_natToStr (n : Nat) : '-' ∉ natToStr n := by
  rw [natToStr_eq_digitsOf]
  intro hm
  exact absurd (digitsOf_all_digits n '-' hm) (by decide)

theorem toLowerChar_ne_dash (c : Char) (h : c.isAlphanum = true) : toLowerChar c ≠ '-' := by
  intro hc
  unfold toLowerChar at hc
  split at hc <;>
    first
      | exact absurd hc (by decide)
      | (subst hc; exact absurd h (by decide))

theorem dash_not_mem_normName (s : Str) :
    '-' ∉ toLowerStr (s.filter (fun ch => ch.isAlphanum)) := by
  intro hm
  simp only [toLowerStr, List.mem_map] at hm
  obtain ⟨z, hz, hzl⟩ := hm
  exact toLowerChar_ne_dash z (List.mem_filter.mp hz).2 hzl

theorem dash_not_mem_stripDashes (s : Str) : '-' ∉ s.filter (fun ch => ch ≠ '-') := by
  intro hm
  have := (List.mem_filter.mp hm).2
  simp at this

/-- If two concatenations `a ++ '-' :: u` and `b ++ '-' :: v` agree and
neither `a` nor `b` contains a dash, the parts agree: the first dash
separates unambiguously. -/
theorem append_dash_inj :
    ∀ (a b u v : Str), '-' ∉ a → '-' ∉ b → a ++ '-' :: u = b ++ '-' :: v →
      a = b ∧ u = v := by
  intro a
  induction a with
  | nil =>
    intro b u v _ hb h
    cases b with
    | nil => simpa using h
    | cons y ys =>
      simp only [List.nil_append, List.cons_append, List.cons.injEq] at h
      cases h.1
      exact absurd (List.mem_cons_self _ _) hb
  | cons x xs ih =>
    intro b u v ha hb h
    cases b with
    | nil =>
      simp only [List.cons_append, List.nil_append, List.cons.injEq] at h
      rw [h.1] at ha
      exact absurd (List.mem_cons_self _ _) ha
    | cons y ys =>
      simp only [List.cons_append, List.cons.injEq] at h
      obtain ⟨hxy, hrest⟩ := h
      have ha' : '-' ∉ xs := fun hm => ha (List.mem_cons_of_mem _ hm)
      have hb' : '-' ∉ ys := fun hm => hb (List.mem_cons_of_mem _ hm)
      obtain ⟨h1, h2⟩ := ih ys u v ha' hb' hrest
      exact ⟨by rw [hxy, h1], h2⟩

/-- `generateUID` in right-nested form, each component separated by a
single dash. -/
theorem generateUID_unfold (hh : Holiday) (cc : Str) (yy : Nat) :
    generateUID hh cc yy =
      hh.date.filter (fun ch => ch ≠ '-') ++ '-' ::
        (toLowerStr (hh.name.filter (fun ch => ch.isAlphanum)) ++ '-' ::
          (cc ++ '-' :: (natToStr yy ++ str "@holiday-calendar-api.com"))) := by
  simp [generateUID, str, List.append_assoc]

/-! ## C2 — the corrected uniqueness statement -/

/-- Counterexample to C2 as stated: two records with DIFFERENT names (one
carrying punctuation and capitals, the other not) receive the SAME UID
for the same country and year, because the name enters the UID only
through its normalization (non-alphanumeric characters removed,
lower-cased). -/
theorem generateUID_collision :
    (str "New Year\x27s Day" ≠ str "NewYearsDay") ∧
    generateUID ⟨str "2025-01-01", str "New Year\x27s Day", none, str "public", none⟩
        (str "US") 2025 =
      generateUID ⟨str "2025-01-01", str "NewYearsDay", none, str "public", none⟩
        (str "US") 2025 := by
  refine ⟨?_, ?_⟩ <;> decide

/-- C2 (amended): the UID is the stated dash-separated concatenation and
is deterministic; for a dash-free country code, two UIDs coincide exactly
when the dash-stripped dates, the normalized (alphanumerics-only,
lower-cased) names, the countries and the years all coincide — so UIDs
differ whenever date, country or year differ (after dash-stripping of
the date), but names that normalize identically collide. -/
theorem generateUID_eq_iff (h h' : Holiday) (c c' : Str) (y y' : Nat)
    (hc : '-' ∉ c) (hc' : '-' ∉ c') :
    generateUID h c y = generateUID h' c' y' ↔
      (h.date.filter (fun ch => ch ≠ '-') = h'.date.filter (fun ch => ch ≠ '-') ∧
       toLowerStr (h.name.filter (fun ch => ch.isAlphanum)) =
         toLowerStr (h'.name.filter (fun ch => ch.isAlphanum)) ∧
       c = c' ∧ y = y') := by
  constructor
  · intro heq
    rw [generateUID_unfold, generateUID_unfold] at heq
    obtain ⟨e1, r1⟩ := append_dash_inj _ _ _ _
      (dash_not_mem_stripDashes h.date) (dash_not_mem_stripDashes h'.date) heq
    obtain ⟨e2, r2⟩ := append_dash_inj _ _ _ _
      (dash_not_mem_normName h.name) (dash_not_mem_normName h'.name) r1
    obtain ⟨e3, r3⟩ := append_dash_inj _ _ _ _ hc hc' r2
    have e4 : natToStr y = natToStr y' := List.append_cancel_right r3
    exact ⟨e1, e2, e3, natToStr_injective e4⟩
  · rintro ⟨e1, e2, e3, e4⟩
    rw [generateUID_unfold, generateUID_unfold, e1, e2, e3, e4]

/-- Witness for the amended C2: records whose dates differ only by dash
placement and whose names differ only by case and punctuation receive the
same UID. -/
theorem generateUID_eq_iff_witness :
    generateUID ⟨str "2025-01-01", str "NewYears", none, str "public", none⟩
        (str "US") 2025 =
      generateUID ⟨str "20250101", str "new-years", none, str "public", none⟩
        (str "US") 2025 :=
  (generateUID_eq_iff _ _ _ _ _ _ (by decide) (by decide)).mpr
    ⟨by decide, by decide, rfl, rfl⟩

/-! ## C8 — year validation -/

/-- C8: with a valid country, the request is accepted exactly when the
`year` value `parseInt`s to an integer in `[2000, 2030]`; otherwise it is
rejected with `INVALID_YEAR` (`MISSING_YEAR` when the value is absent or
empty) before any holiday resolution; in particular `1999` and `2031` are
rejected while `2000` and `2030` are accepted. -/
theorem validateHolidayRequest_year_range (country ys : Str) (region : Option Str)
    (hne : country ≠ []) (hc : VALID_COUNTRIES.contains (toUpperStr country) = true) :
    ((∃ c n r, validateHolidayRequest (some country) (some ys) region =
        ValidationResult.ok c n r) ↔
      (∃ n, jsParseInt ys = some n ∧ 2000 ≤ n ∧ n ≤ 2030)) ∧
    validateHolidayRequest (some country) none region =
      ValidationResult.errorResp (str "MISSING_YEAR") ∧
    (∀ n, jsParseInt ys = some n → (n < 2000 ∨ n > 2030) →
      validateHolidayRequest (some country) (some ys) region =
        ValidationResult.errorResp (str "INVALID_YEAR")) ∧
    (jsParseInt ys = none → ys ≠ [] →
      validateHolidayRequest (some country) (some ys) region =
        ValidationResult.errorResp (str "INVALID_YEAR")) ∧
    validateHolidayRequest (some (str "US")) (some (str "1999")) none =
      ValidationResult.errorResp (str "INVALID_YEAR") ∧
    validateHolidayRequest (some (str "US")) (some (str "2031")) none =
      ValidationResult.errorResp (str "INVALID_YEAR") ∧
    validateHolidayRequest (some (str "US")) (some (str "2000")) none =
      ValidationResult.ok (str "US") 2000 none ∧
    validateHolidayRequest (some (str "US")) (some (str "2030")) none =
      ValidationResult.ok (str "US") 2030 none := by
  have hcm : toUpperStr country ∈ VALID_COUNTRIES := by simpa using hc
  have hunfold : ys ≠ [] → validateHolidayRequest (some country) (some ys) region =
      (match jsParseInt ys with
       | none => ValidationResult.errorResp (str "INVALID_YEAR")
       | some n =>
         if n < 2000 || n > 2030 then ValidationResult.errorResp (str "INVALID_YEAR")
         else ValidationResult.ok (toUpperStr country) n (region.map toUpperStr)) := by
    intro hys
    simp [validateHolidayRequest, truthy, hne, hys, hcm]
  refine ⟨?_, ?_, ?_, ?_, by decide, by decide, by decide, by decide⟩
  · by_cases hys : ys = []
    · subst hys
      have h1 : validateHolidayRequest (some country) (some []) region =
          ValidationResult.errorResp (str "MISSING_YEAR") := by
        simp [validateHolidayRequest, truthy, hne, hcm]
      have h2 : jsParseInt ([] : Str) = none := rfl
      simp [h1, h2]
    · cases hp : jsParseInt ys with
      | none => simp [hunfold hys, hp]
      | some n =>
        by_cases hr : (n < 2000 || n > 2030) = true
        · rw [hunfold hys]
          simp only [hp, hr, if_true]
          constructor
          · rintro ⟨c, m, r, hm⟩
            simp at hm
          · rintro ⟨m, hm, h1, h2⟩
            rw [Option.some.injEq] at hm
            subst hm
            simp only [decide_eq_true_eq, Bool.or_eq_true] at hr
            exfalso
            rcases hr with h | h <;> omega
        · rw [hunfold hys]
          have hrf : (n < 2000 || n > 2030) = false := by
            revert hr
            cases (n < 2000 || n > 2030: Bool) <;> simp
          simp only [hp, hrf, if_false]
          constructor
          · intro _
            have hb := hrf
            simp only [Bool.or_eq_false_iff, decide_eq_false_iff_not] at hb
            exact ⟨n, rfl, by omega, by omega⟩
          · intro _
            exact ⟨toUpperStr country, n, region.map toUpperStr, rfl⟩
  · simp [validateHolidayRequest, truthy, hne, hcm]
  · intro n hp hout
    have hys : ys ≠ [] := by
      intro he; subst he
      rw [show jsParseInt ([] : Str) = none from rfl] at hp
      exact Option.noConfusion hp
    have hr : (n < 2000 || n > 2030) = true := by
      rcases hout with h | h <;> simp [h]
    rw [hunfold hys]
    simp [hp, hr]
  · intro hp hys
    rw [hunfold hys]
    simp [hp]

/-- Witness for C8: country `US` is valid and non-empty, and `year=2025`
is accepted. -/
theorem validateHolidayRequest_year_range_witness :
    (str "US" ≠ ([] : Str)) ∧
    VALID_COUNTRIES.contains (toUpperStr (str "US")) = true ∧
    (∃ c n r, validateHolidayRequest (some (str "US")) (some (str "2025")) none =
      ValidationResult.ok c n r) :=
  ⟨by decide, by decide,
    (validateHolidayRequest_year_range (str "US") (str "2025") none
        (by decide) (by decide)).1.mpr
      ⟨2025, by decide, by decide, by decide⟩⟩

end HolidayCal
